import Mathlib

/-!
# Kindred backend (`server.js`): model resolution and the word-help handler

A shallow embedding of the stateful part of `server.js`:

* the module variable `WORKING_MODEL`, the constant `MODELS_TO_TRY` and the
  function `findWorkingModel` (lines 23-59);
* the request handlers `POST /api/word-help` (lines 74-123), `GET /health`
  (lines 126-133) and `GET /test` (lines 136-159).

The Gemini SDK (`genAI.getGenerativeModel(..).generateContent(..)` followed by
`result.response.text()`) is the one external capability.  It is a parameter of
the embedding: a state-passing function over an arbitrary type `σ` of states
of the remote service, so that the remote side may answer the same request
differently at different times.  Every call handed to it is appended to a log
kept next to the server state; the log is how the theorems speak about which
remote calls were issued and in which order.  `console.log` output is not
modelled.

Conventions.  A JavaScript string is a Lean `String`; `null` and `undefined`
are `none`.  The body of a word-help request carries a `word` that is absent
or a string.  A handler returns the list of responses it has sent together
with the server afterwards.  `findWorkingModel` and `GET /test` take the list
of candidates as an argument; the server itself passes `MODELS_TO_TRY`.
-/

namespace Kindred

/-! ## JavaScript strings -/

/-- Code points that `String.prototype.trim` strips: ECMAScript `WhiteSpace`
(TAB, VT, FF, ZWNBSP and the category `Zs`) and `LineTerminator`
(LF, CR, LS, PS). -/
def isJsWhiteSpace (c : Char) : Bool :=
  let n := c.toNat
  n == 0x09 || n == 0x0A || n == 0x0B || n == 0x0C || n == 0x0D || n == 0x20 ||
  n == 0xA0 || n == 0x1680 || (0x2000 ≤ n && n ≤ 0x200A) || n == 0x2028 ||
  n == 0x2029 || n == 0x202F || n == 0x205F || n == 0x3000 || n == 0xFEFF

/-- Strip white space from both ends of a list of characters. -/
def trimChars (cs : List Char) : List Char :=
  ((cs.dropWhile isJsWhiteSpace).reverse.dropWhile isJsWhiteSpace).reverse

/-- The method `String.prototype.trim`. -/
def jsTrim (s : String) : String := ⟨trimChars s.data⟩

/-- JavaScript truthiness of a value that is `null`/`undefined` (`none`) or a
string: only a non-empty string is truthy. -/
def truthy : Option String → Bool
  | none => false
  | some s => decide (s ≠ "")

/-! ## The remote generative-text service -/

/-- One remote generation call: the identifier given to
`genAI.getGenerativeModel` as `model` and the prompt given to
`generateContent`. -/
structure Call where
  model : String
  prompt : String
deriving DecidableEq, Repr

/-- The value that `await model.generateContent(prompt)` resolves to.  The
server only ever reads `result.response.text()`, which either returns the text
or throws an error (recorded by its message). -/
structure GenerateContentResult where
  text : Except String String

/-- The remote service: from its current state, a model identifier and a
prompt, either `generateContent` rejects (with the message of the error) or it
resolves to a result; the service moves to a new state. -/
abbrev Remote (σ : Type) := σ → String → String → Except String GenerateContentResult × σ

/-- The server process: the module variable `WORKING_MODEL` (`null` is `none`),
the state of the remote service, and the log of remote calls issued so far,
oldest first. -/
structure Server (σ : Type) where
  WORKING_MODEL : Option String
  remote : σ
  calls : List Call

/-- The step `await genAI.getGenerativeModel(..).generateContent(prompt)`:
the call is logged and the remote service answers. -/
def generateContent {σ : Type} (R : Remote σ) (st : Server σ) (model prompt : String) :
    Except String GenerateContentResult × Server σ :=
  ((R st.remote model prompt).1,
    { st with remote := (R st.remote model prompt).2, calls := st.calls ++ [⟨model, prompt⟩] })

/-! ## Model resolution (lines 23-59) -/

/-- The constant `MODELS_TO_TRY`. -/
def MODELS_TO_TRY : List String :=
  [ "gemini-1.5-flash",
    "gemini-1.5-pro",
    "gemini-pro",
    "gemini-1.5-flash-latest",
    "gemini-1.5-flash-002",
    "models/gemini-1.5-flash",
    "models/gemini-pro",
    "models/gemini-2.5-flash-image",
    "models/gemini-3-pro-image-preview",
    "models/gemini-2.5-flash" ]

/-- The prompt of a probe. -/
def probePrompt : String := "Say hi in one word"

/-- The message of the error thrown when no candidate answers. -/
def noWorkingModel : String := "No working model found. Please check your API key."

/-- The function `findWorkingModel`, with the list iterated by its `for` loop
as an argument (the server passes `MODELS_TO_TRY`).  Each iteration probes one
candidate inside `try`; on success it assigns `WORKING_MODEL` and returns the
candidate, on a thrown error (from `generateContent` or from
`result.response.text()`) it goes on to the next candidate.  After the loop it
throws.  The result is `.ok modelName` for `return modelName` and
`.error message` for the thrown error. -/
def findWorkingModel {σ : Type} (R : Remote σ) :
    List String → Server σ → Except String String × Server σ
  | [], st => (.error noWorkingModel, st)
  | modelName :: rest, st =>
    match generateContent R st modelName probePrompt with
    | (.error _, st1) => findWorkingModel R rest st1
    | (.ok result, st1) =>
      match result.text with
      | .error _ => findWorkingModel R rest st1
      | .ok _ => (.ok modelName, { st1 with WORKING_MODEL := some modelName })

/-! ## HTTP responses -/

/-- The JSON values that occur in the bodies the server sends. -/
inductive JsonValue where
  | str (s : String)
  | bool (b : Bool)
deriving DecidableEq, Repr

/-- One response sent through `res`: the status code (`200` when
`res.status` is not called) and the fields of the JSON object, in order. -/
structure Response where
  status : Nat
  body : List (String × JsonValue)
deriving DecidableEq, Repr

/-- The value of a field of the response body, if the field is present. -/
def Response.field (r : Response) (key : String) : Option JsonValue :=
  r.body.lookup key

/-- The body of a word-help request after `express.json()`: the field `word`
is absent (`none`) or a string. -/
structure WordHelpRequest where
  word : Option String

/-- The response sent for a falsy word: status `400`, field `error` with the
text `Word is required`. -/
def wordRequired : Response :=
  ⟨400, [("error", .str "Word is required")]⟩

/-- The response sent while `WORKING_MODEL` is falsy. -/
def serverNotReady : Response :=
  ⟨500, [("error", .str "Server not ready"),
    ("message", .str "Model initialization in progress. Please try again in a few seconds.")]⟩

/-- The response sent by the `catch` block of the word-help handler. -/
def failedToProcess (message : String) : Response :=
  ⟨500, [("error", .str "Failed to process word"), ("message", .str message)]⟩

/-- The template literal `defPrompt`. -/
def defPrompt (word : String) : String :=
  "You are a friendly teacher. Explain the word \"" ++ word ++
    "\" to a 5-year-old child in ONE simple, fun sentence. Keep it under 25 words."

/-- The template literal `imgPrompt`. -/
def imgPrompt (word : String) : String :=
  "Describe a colorful, friendly cartoon image of \"" ++ word ++
    "\" for children. One sentence, under 25 words."

/-! ## The handler of `POST /api/word-help` (lines 74-123) -/

/-- The handler of `POST /api/word-help`.  It returns the responses sent, in
order, and the server afterwards.  `if (!word)` and `if (!WORKING_MODEL)` are
JavaScript falsiness tests: they fire on `undefined`/`null` and on the empty
string.  Any error thrown by the two generation steps lands in the one
`catch` block. -/
def wordHelp {σ : Type} (R : Remote σ) (body : WordHelpRequest) (st : Server σ) :
    List Response × Server σ :=
  match body.word with
  | none => ([wordRequired], st)
  | some word =>
    if word = "" then ([wordRequired], st) else
    match st.WORKING_MODEL with
    | none => ([serverNotReady], st)
    | some workingModel =>
      if workingModel = "" then ([serverNotReady], st) else
      match generateContent R st workingModel (defPrompt word) with
      | (.error message, st1) => ([failedToProcess message], st1)
      | (.ok defResult, st1) =>
        match defResult.text with
        | .error message => ([failedToProcess message], st1)
        | .ok defText =>
          let definition := jsTrim defText
          match generateContent R st1 workingModel (imgPrompt word) with
          | (.error message, st2) => ([failedToProcess message], st2)
          | (.ok imgResult, st2) =>
            match imgResult.text with
            | .error message => ([failedToProcess message], st2)
            | .ok imgText =>
              let imagePrompt := jsTrim imgText
              ([⟨200, [("word", .str word), ("definition", .str definition),
                  ("imagePrompt", .str imagePrompt)]⟩], st2)

/-! ## The handlers of `GET /health` and `GET /test` (lines 126-159) -/

/-- The handler of `GET /health`; the clock reading and the presence of the
API key are arguments. -/
def health {σ : Type} (timestamp : String) (apiKeyPresent : Bool) (st : Server σ) :
    List Response × Server σ :=
  ([⟨200, [("status", .str "healthy"), ("timestamp", .str timestamp),
      ("model", .str (if truthy st.WORKING_MODEL then st.WORKING_MODEL.getD "" else "initializing")),
      ("apiKeyPresent", .bool apiKeyPresent)]⟩], st)

/-- The statement `if (!WORKING_MODEL) await findWorkingModel()` of the
test endpoint: `.ok ()` when control falls through to the next statement,
`.error message` when `findWorkingModel` throws. -/
def resolveIfNeeded {σ : Type} (R : Remote σ) (candidates : List String) (st : Server σ) :
    Except String Unit × Server σ :=
  if truthy st.WORKING_MODEL then (.ok (), st)
  else
    match findWorkingModel R candidates st with
    | (.ok _, st1) => (.ok (), st1)
    | (.error message, st1) => (.error message, st1)

/-- The handler of `GET /test`.  After `resolveIfNeeded` falls through,
`WORKING_MODEL` holds a string (it was truthy, or `findWorkingModel` has just
assigned it), so the default of `getD` is never used. -/
def testEndpoint {σ : Type} (R : Remote σ) (candidates : List String) (st : Server σ) :
    List Response × Server σ :=
  match resolveIfNeeded R candidates st with
  | (.error message, st1) =>
    ([⟨500, [("success", .bool false), ("error", .str message)]⟩], st1)
  | (.ok _, st1) =>
    let workingModel := st1.WORKING_MODEL.getD ""
    match generateContent R st1 workingModel "Say hello in one word" with
    | (.error message, st2) =>
      ([⟨500, [("success", .bool false), ("error", .str message)]⟩], st2)
    | (.ok result, st2) =>
      match result.text with
      | .error message =>
        ([⟨500, [("success", .bool false), ("error", .str message)]⟩], st2)
      | .ok text =>
        ([⟨200, [("success", .bool true), ("message", .str "API key is working!"),
            ("model", .str workingModel), ("response", .str text)]⟩], st2)

/-! ## Vocabulary of the statements -/

/-- A generation step succeeds when `generateContent` resolves and
`result.response.text()` returns. -/
def stepSucceeds : Except String GenerateContentResult → Bool
  | .error _ => false
  | .ok result =>
    match result.text with
    | .error _ => false
    | .ok _ => true

/-- The message of the error a generation step throws, if it throws. -/
def thrownMessage : Except String GenerateContentResult → Option String
  | .error message => some message
  | .ok result =>
    match result.text with
    | .error message => some message
    | .ok _ => none

/-- The log entry of a probe of one candidate. -/
def probeCall (c : String) : Call := ⟨c, probePrompt⟩

/-- The server after probing each candidate of a list in turn (used to describe
a run of failed probes). -/
def afterProbes {σ : Type} (R : Remote σ) : List String → Server σ → Server σ
  | [], st => st
  | c :: cs, st => afterProbes R cs (generateContent R st c probePrompt).2

/-! ## Concrete remote services and servers for the worked examples -/

/-- A remote service on which only the model `"m2"` answers. -/
def m2Only : Remote Unit := fun s model _ =>
  if model = "m2" then (.ok ⟨.ok "Hi"⟩, s) else (.error "model not found", s)

/-- A remote service that rejects every call. -/
def rejectAll : Remote Unit := fun s _ _ => (.error "API key not valid", s)

/-- A remote service that answers every call with the blank text `"  "`. -/
def blankText : Remote Unit := fun s _ _ => (.ok ⟨.ok "  "⟩, s)

/-- A remote service that counts the calls it has received and rejects the
call numbered `k` (counting from `0`); every other call is answered. -/
def failsAt (k : Nat) : Remote Nat := fun n _ _ =>
  if n = k then (.error "quota exceeded", n + 1) else (.ok ⟨.ok "some text"⟩, n + 1)

/-- A remote service that answers the definition prompt for `cat` and the
image prompt for `cat` with the texts of the worked scenario. -/
def catRemote : Remote Unit := fun s _ prompt =>
  if prompt = defPrompt "cat" then (.ok ⟨.ok "A cat is a furry pet that purrs."⟩, s)
  else (.ok ⟨.ok "A cute orange cartoon cat sitting in a garden."⟩, s)

/-- A server whose `WORKING_MODEL` is `"m2"`. -/
def resolvedM2 : Server Unit := ⟨some "m2", (), []⟩

/-- A server whose `WORKING_MODEL` is `"m2"`, facing a call-counting remote
service that has received no call yet. -/
def resolvedM2Counting : Server Nat := ⟨some "m2", 0, []⟩

/-- A server that has not resolved a model and has issued no call. -/
def freshServer : Server Unit := ⟨none, (), []⟩

/-! ## Lemmas on `findWorkingModel` -/

theorem findWorkingModel_cons_of_fail {σ : Type} (R : Remote σ) (c : String)
    (rest : List String) (st : Server σ)
    (h : stepSucceeds (R st.remote c probePrompt).1 = false) :
    findWorkingModel R (c :: rest) st =
      findWorkingModel R rest (generateContent R st c probePrompt).2 := by
  rw [findWorkingModel]
  simp only [generateContent]
  rcases hr : R st.remote c probePrompt with ⟨r, s⟩
  rw [hr] at h
  cases r with
  | error e => rfl
  | ok result =>
    cases ht : result.text with
    | error e => simp [ht]
    | ok t => simp [stepSucceeds, ht] at h

theorem findWorkingModel_cons_of_success {σ : Type} (R : Remote σ) (c : String)
    (rest : List String) (st : Server σ)
    (h : stepSucceeds (R st.remote c probePrompt).1 = true) :
    findWorkingModel R (c :: rest) st =
      (.ok c, { (generateContent R st c probePrompt).2 with WORKING_MODEL := some c }) := by
  rw [findWorkingModel]
  simp only [generateContent]
  rcases hr : R st.remote c probePrompt with ⟨r, s⟩
  rw [hr] at h
  cases r with
  | error e => simp [stepSucceeds] at h
  | ok result =>
    cases ht : result.text with
    | error e => simp [stepSucceeds, ht] at h
    | ok t => simp [ht]

theorem afterProbes_WORKING_MODEL {σ : Type} (R : Remote σ) (cs : List String) :
    ∀ st : Server σ, (afterProbes R cs st).WORKING_MODEL = st.WORKING_MODEL := by
  induction cs with
  | nil => intro st; rfl
  | cons c cs ih => intro st; simp [afterProbes, ih, generateContent]

theorem afterProbes_calls {σ : Type} (R : Remote σ) (cs : List String) :
    ∀ st : Server σ, (afterProbes R cs st).calls = st.calls ++ cs.map probeCall := by
  induction cs with
  | nil => intro st; simp [afterProbes]
  | cons c cs ih => intro st; simp [afterProbes, ih, generateContent, probeCall]

theorem afterProbes_congr {σ : Type} (R R2 : Remote σ) (cs : List String)
    (h : ∀ s, ∀ c ∈ cs, R2 s c probePrompt = R s c probePrompt) :
    ∀ st : Server σ, afterProbes R2 cs st = afterProbes R cs st := by
  induction cs with
  | nil => intro st; rfl
  | cons c cs ih =>
    intro st
    have hc : ∀ s, R2 s c probePrompt = R s c probePrompt := fun s => h s c (by simp)
    have ih2 := ih (fun s d hd => h s d (by simp [hd]))
    simp [afterProbes, generateContent, hc, ih2]

theorem findWorkingModel_append_of_fail {σ : Type} (R : Remote σ) (pre rest : List String)
    (h : ∀ s, ∀ c ∈ pre, stepSucceeds (R s c probePrompt).1 = false) :
    ∀ st : Server σ,
      findWorkingModel R (pre ++ rest) st = findWorkingModel R rest (afterProbes R pre st) := by
  induction pre with
  | nil => intro st; rfl
  | cons c cs ih =>
    intro st
    have ih2 := ih (fun s d hd => h s d (by simp [hd]))
    rw [List.cons_append, findWorkingModel_cons_of_fail R c _ st (h _ c (by simp)), ih2]
    rfl

theorem findWorkingModel_of_split {σ : Type} (R : Remote σ) (pre : List String) (w : String)
    (post : List String)
    (hfail : ∀ s, ∀ c ∈ pre, stepSucceeds (R s c probePrompt).1 = false)
    (hw : ∀ s, stepSucceeds (R s w probePrompt).1 = true) (st : Server σ) :
    findWorkingModel R (pre ++ w :: post) st =
      (.ok w, { (generateContent R (afterProbes R pre st) w probePrompt).2 with
        WORKING_MODEL := some w }) := by
  rw [findWorkingModel_append_of_fail R pre _ hfail,
    findWorkingModel_cons_of_success R w post _ (hw _)]

theorem findWorkingModel_of_all_fail {σ : Type} (R : Remote σ) (candidates : List String)
    (hfail : ∀ s, ∀ c ∈ candidates, stepSucceeds (R s c probePrompt).1 = false)
    (st : Server σ) :
    findWorkingModel R candidates st = (.error noWorkingModel, afterProbes R candidates st) := by
  have h := findWorkingModel_append_of_fail R candidates [] hfail st
  rw [List.append_nil] at h
  rw [h]
  rfl

theorem first_success_split (ok : String → Bool) (candidates : List String)
    (hex : ∃ c ∈ candidates, ok c = true) :
    ∃ pre w post, candidates = pre ++ w :: post ∧ (∀ c ∈ pre, ok c = false) ∧ ok w = true := by
  obtain ⟨c, hc, hcok⟩ := hex
  cases hf : candidates.find? ok with
  | none => rw [List.find?_eq_none] at hf; exact absurd hcok (hf c hc)
  | some w =>
    obtain ⟨hw, pre, post, hsplit, hpre⟩ := List.find?_eq_some.mp hf
    exact ⟨pre, w, post, hsplit, fun c hc => by simpa using hpre c hc, hw⟩

theorem findWorkingModel_WORKING_MODEL {σ : Type} (R : Remote σ) (candidates : List String) :
    ∀ st : Server σ,
      match (findWorkingModel R candidates st).1 with
      | .ok w => (findWorkingModel R candidates st).2.WORKING_MODEL = some w
      | .error _ => (findWorkingModel R candidates st).2.WORKING_MODEL = st.WORKING_MODEL := by
  induction candidates with
  | nil => intro st; rfl
  | cons c cs ih =>
    intro st
    cases h : stepSucceeds (R st.remote c probePrompt).1 with
    | true => rw [findWorkingModel_cons_of_success R c cs st h]
    | false =>
      rw [findWorkingModel_cons_of_fail R c cs st h]
      have := ih (generateContent R st c probePrompt).2
      simpa [generateContent] using this

theorem findWorkingModel_mem {σ : Type} (R : Remote σ) (candidates : List String) :
    ∀ (st : Server σ) (w : String),
      (findWorkingModel R candidates st).1 = .ok w → w ∈ candidates := by
  induction candidates with
  | nil => intro st w h; cases h
  | cons c cs ih =>
    intro st w h
    cases hs : stepSucceeds (R st.remote c probePrompt).1 with
    | true =>
      rw [findWorkingModel_cons_of_success R c cs st hs] at h
      have hcw : c = w := by simpa using h
      simp [hcw]
    | false =>
      rw [findWorkingModel_cons_of_fail R c cs st hs] at h
      exact List.mem_cons_of_mem _ (ih _ w h)

/-- Every identifier of `MODELS_TO_TRY` is a non-empty string, so a model
resolved from that list passes the readiness test `if (!WORKING_MODEL)`. -/
theorem resolved_from_MODELS_TO_TRY_truthy {σ : Type} (R : Remote σ) (st : Server σ)
    (w : String) (h : (findWorkingModel R MODELS_TO_TRY st).1 = .ok w) :
    w ≠ "" ∧ truthy (findWorkingModel R MODELS_TO_TRY st).2.WORKING_MODEL = true := by
  have hmem := findWorkingModel_mem R MODELS_TO_TRY st w h
  have hall : ∀ m ∈ MODELS_TO_TRY, m ≠ "" := by decide
  have hne := hall w hmem
  have hW := findWorkingModel_WORKING_MODEL R MODELS_TO_TRY st
  rw [h] at hW
  simp only at hW
  exact ⟨hne, by rw [hW]; simp [truthy, hne]⟩

/-! ## Lemmas on the word-help handler -/

theorem thrownMessage_eq_none {x : Except String GenerateContentResult}
    (h : thrownMessage x = none) : ∃ r t, x = .ok r ∧ r.text = .ok t := by
  cases x with
  | error e => simp [thrownMessage] at h
  | ok r =>
    cases ht : r.text with
    | error e => simp [thrownMessage, ht] at h
    | ok t => exact ⟨r, t, rfl, ht⟩

theorem stepSucceeds_of_thrownMessage {x : Except String GenerateContentResult}
    (h : thrownMessage x = none) : stepSucceeds x = true := by
  obtain ⟨r, t, rfl, ht⟩ := thrownMessage_eq_none h
  simp [stepSucceeds, ht]

theorem stepFails_of_thrownMessage {x : Except String GenerateContentResult} {msg : String}
    (h : thrownMessage x = some msg) : stepSucceeds x = false := by
  cases x with
  | error e => rfl
  | ok r =>
    cases ht : r.text with
    | error e => simp [stepSucceeds, ht]
    | ok t => simp [thrownMessage, ht] at h

theorem wordHelp_of_falsy_word {σ : Type} (R : Remote σ) (body : WordHelpRequest)
    (st : Server σ) (h : body.word = none ∨ body.word = some "") :
    wordHelp R body st = ([wordRequired], st) := by
  unfold wordHelp
  rcases h with h | h <;> simp [h]

theorem wordHelp_of_not_ready {σ : Type} (R : Remote σ) (word : String) (st : Server σ)
    (hword : word ≠ "") (h : st.WORKING_MODEL = none ∨ st.WORKING_MODEL = some "") :
    wordHelp R ⟨some word⟩ st = ([serverNotReady], st) := by
  unfold wordHelp
  rcases h with h | h <;> simp [h, hword]

theorem wordHelp_of_def_fails {σ : Type} (R : Remote σ) (word m msg : String) (st : Server σ)
    (hword : word ≠ "") (hm : m ≠ "") (hwm : st.WORKING_MODEL = some m)
    (hdef : thrownMessage (R st.remote m (defPrompt word)).1 = some msg) :
    wordHelp R ⟨some word⟩ st =
      ([failedToProcess msg], (generateContent R st m (defPrompt word)).2) := by
  unfold wordHelp
  simp only [hwm, hword, hm, if_false, generateContent]
  rcases hr : R st.remote m (defPrompt word) with ⟨r, s⟩
  rw [hr] at hdef
  cases r with
  | error e => simp [thrownMessage] at hdef; simp [hdef]
  | ok result =>
    cases ht : result.text with
    | error e => simp [thrownMessage, ht] at hdef; simp [ht, hdef]
    | ok t => simp [thrownMessage, ht] at hdef

theorem wordHelp_of_img_fails {σ : Type} (R : Remote σ) (word m msg : String) (st : Server σ)
    (hword : word ≠ "") (hm : m ≠ "") (hwm : st.WORKING_MODEL = some m)
    (hdef : stepSucceeds (R st.remote m (defPrompt word)).1 = true)
    (himg : thrownMessage
      (R (R st.remote m (defPrompt word)).2 m (imgPrompt word)).1 = some msg) :
    wordHelp R ⟨some word⟩ st =
      ([failedToProcess msg],
        (generateContent R (generateContent R st m (defPrompt word)).2 m (imgPrompt word)).2) := by
  unfold wordHelp
  simp only [hwm, hword, hm, if_false, generateContent]
  rcases hr : R st.remote m (defPrompt word) with ⟨r, s⟩
  rw [hr] at hdef himg
  cases r with
  | error e => simp [stepSucceeds] at hdef
  | ok result =>
    cases ht : result.text with
    | error e => simp [stepSucceeds, ht] at hdef
    | ok t =>
      simp only [ht]
      rcases hr2 : R s m (imgPrompt word) with ⟨r2, s2⟩
      simp only at himg
      rw [hr2] at himg
      cases r2 with
      | error e => simp [thrownMessage] at himg; simp [himg]
      | ok result2 =>
        cases ht2 : result2.text with
        | error e => simp [thrownMessage, ht2] at himg; simp [ht2, himg]
        | ok t2 => simp [thrownMessage, ht2] at himg

theorem wordHelp_of_success {σ : Type} (R : Remote σ) (word m : String) (st : Server σ)
    (r1 r2 : GenerateContentResult) (t1 t2 : String)
    (hword : word ≠ "") (hm : m ≠ "") (hwm : st.WORKING_MODEL = some m)
    (h1 : (R st.remote m (defPrompt word)).1 = .ok r1) (ht1 : r1.text = .ok t1)
    (h2 : (R (R st.remote m (defPrompt word)).2 m (imgPrompt word)).1 = .ok r2)
    (ht2 : r2.text = .ok t2) :
    wordHelp R ⟨some word⟩ st =
      ([⟨200, [("word", .str word), ("definition", .str (jsTrim t1)),
          ("imagePrompt", .str (jsTrim t2))]⟩],
        (generateContent R (generateContent R st m (defPrompt word)).2 m (imgPrompt word)).2) := by
  unfold wordHelp
  simp only [hwm, hword, hm, if_false, generateContent]
  rcases hr : R st.remote m (defPrompt word) with ⟨a, s⟩
  rw [hr] at h1 h2
  simp only at h1 h2
  subst h1
  simp only [ht1]
  rcases hr2 : R s m (imgPrompt word) with ⟨b, s2⟩
  rw [hr2] at h2
  simp only at h2
  subst h2
  simp only [ht2]

theorem wordHelp_WORKING_MODEL {σ : Type} (R : Remote σ) (body : WordHelpRequest)
    (st : Server σ) : (wordHelp R body st).2.WORKING_MODEL = st.WORKING_MODEL := by
  rcases body with ⟨_ | word⟩
  · rw [wordHelp_of_falsy_word R _ st (Or.inl rfl)]
  by_cases hword : word = ""
  · rw [wordHelp_of_falsy_word R _ st (Or.inr (by rw [hword]))]
  cases hwm : st.WORKING_MODEL with
  | none => rw [wordHelp_of_not_ready R word st hword (Or.inl hwm)]; exact hwm
  | some m =>
    by_cases hm : m = ""
    · rw [wordHelp_of_not_ready R word st hword (Or.inr (by rw [hwm, hm]))]; exact hwm
    cases hdef : thrownMessage (R st.remote m (defPrompt word)).1 with
    | some msg => rw [wordHelp_of_def_fails R word m msg st hword hm hwm hdef]; exact hwm
    | none =>
      obtain ⟨r1, t1, h1, ht1⟩ := thrownMessage_eq_none hdef
      cases himg : thrownMessage (R (R st.remote m (defPrompt word)).2 m (imgPrompt word)).1 with
      | some msg =>
        rw [wordHelp_of_img_fails R word m msg st hword hm hwm
          (stepSucceeds_of_thrownMessage hdef) himg]
        exact hwm
      | none =>
        obtain ⟨r2, t2, h2, ht2⟩ := thrownMessage_eq_none himg
        rw [wordHelp_of_success R word m st r1 r2 t1 t2 hword hm hwm h1 ht1 h2 ht2]
        exact hwm

theorem resolveIfNeeded_of_truthy {σ : Type} (R : Remote σ) (candidates : List String)
    (st : Server σ) (m : String) (hwm : st.WORKING_MODEL = some m) (hm : m ≠ "") :
    resolveIfNeeded R candidates st = (.ok (), st) := by
  simp [resolveIfNeeded, truthy, hwm, hm]

theorem testEndpoint_of_truthy {σ : Type} (R : Remote σ) (candidates : List String)
    (st : Server σ) (m : String) (hwm : st.WORKING_MODEL = some m) (hm : m ≠ "") :
    (testEndpoint R candidates st).2 = (generateContent R st m "Say hello in one word").2 := by
  unfold testEndpoint
  rw [resolveIfNeeded_of_truthy R candidates st m hwm hm]
  simp only [hwm, Option.getD_some, generateContent]
  rcases R st.remote m "Say hello in one word" with ⟨r, s⟩
  cases r with
  | error e => rfl
  | ok result =>
    cases ht : result.text with
    | error e => simp [ht]
    | ok t => simp [ht]

/-! ## Lemmas on `trim` -/

theorem dropWhile_all_iff (p : Char → Bool) (l : List Char) :
    (∀ c ∈ l.dropWhile p, p c = true) ↔ ∀ c ∈ l, p c = true := by
  constructor
  · intro h
    have hnil : l.dropWhile p = [] := by
      by_contra hne
      have hhead := List.head_dropWhile_not p l hne
      have := h _ (List.head_mem hne)
      simp [this] at hhead
    exact List.dropWhile_eq_nil_iff.mp hnil
  · intro h c hc
    exact h c ((List.dropWhile_sublist p).subset hc)

theorem trimChars_eq_nil_iff (l : List Char) :
    trimChars l = [] ↔ ∀ c ∈ l, isJsWhiteSpace c = true := by
  unfold trimChars
  rw [List.reverse_eq_nil_iff, List.dropWhile_eq_nil_iff]
  simp only [List.mem_reverse]
  exact dropWhile_all_iff isJsWhiteSpace l

theorem jsTrim_ne_empty_iff (t : String) :
    jsTrim t ≠ "" ↔ ∃ c ∈ t.data, isJsWhiteSpace c = false := by
  have h : jsTrim t = "" ↔ trimChars t.data = [] := by
    unfold jsTrim
    constructor
    · intro h
      have := congrArg String.data h
      simpa using this
    · intro h
      rw [h]
  rw [Ne, h, trimChars_eq_nil_iff]
  simp

/-! ## Resolution: first success wins, exhaustion -/

/-- Claim C1.  Let the success of a probe be decided by the candidate alone
(`ok c`), and let some candidate of the list pass.  Then the list splits as
`pre ++ w :: post` where every candidate of `pre` fails and `w` passes, and
`findWorkingModel` returns `w`, leaves `WORKING_MODEL` equal to `w`, and has
issued exactly the probes of `pre` and then `w`, in list order.  No candidate of
`post` is probed: any other remote service that answers the probes of `pre` and
`w` alike gives the same run, whatever it does on the later candidates. -/
theorem findWorkingModel_first_success {σ : Type} (R : Remote σ) (ok : String → Bool)
    (hok : ∀ s c, stepSucceeds (R s c "Say hi in one word").1 = ok c)
    (candidates : List String) (st : Server σ)
    (hex : ∃ c ∈ candidates, ok c = true) :
    ∃ pre w post, candidates = pre ++ w :: post ∧ (∀ c ∈ pre, ok c = false) ∧ ok w = true ∧
      (findWorkingModel R candidates st).1 = .ok w ∧
      (findWorkingModel R candidates st).2.WORKING_MODEL = some w ∧
      (findWorkingModel R candidates st).2.calls =
        st.calls ++ (pre ++ [w]).map (fun c => (⟨c, "Say hi in one word"⟩ : Call)) ∧
      ∀ R2 : Remote σ,
        (∀ s, ∀ c ∈ pre ++ [w], R2 s c "Say hi in one word" = R s c "Say hi in one word") →
        findWorkingModel R2 candidates st = findWorkingModel R candidates st := by
  obtain ⟨pre, w, post, hsplit, hpre2, hw⟩ := first_success_split ok candidates hex
  have hfailR : ∀ s, ∀ c ∈ pre, stepSucceeds (R s c probePrompt).1 = false :=
    fun s c hc => by rw [show probePrompt = "Say hi in one word" from rfl, hok, hpre2 c hc]
  have hwR : ∀ s, stepSucceeds (R s w probePrompt).1 = true :=
    fun s => by rw [show probePrompt = "Say hi in one word" from rfl, hok, hw]
  have hrun : findWorkingModel R candidates st =
      (.ok w, { (generateContent R (afterProbes R pre st) w probePrompt).2 with
        WORKING_MODEL := some w }) := by
    rw [hsplit, findWorkingModel_of_split R pre w post hfailR hwR]
  refine ⟨pre, w, post, hsplit, hpre2, hw, ?_, ?_, ?_, ?_⟩
  · rw [hrun]
  · rw [hrun]
  · rw [hrun]
    simp [generateContent, afterProbes_calls, probeCall, probePrompt]
  · intro R2 hagree
    have hagree2 : ∀ s, ∀ c ∈ pre ++ [w], R2 s c probePrompt = R s c probePrompt := hagree
    have hfailR2 : ∀ s, ∀ c ∈ pre, stepSucceeds (R2 s c probePrompt).1 = false :=
      fun s c hc => by rw [hagree2 s c (by simp [hc])]; exact hfailR s c hc
    have hwR2 : ∀ s, stepSucceeds (R2 s w probePrompt).1 = true :=
      fun s => by rw [hagree2 s w (by simp)]; exact hwR s
    rw [hrun, hsplit, findWorkingModel_append_of_fail R2 pre _ hfailR2,
      findWorkingModel_cons_of_success R2 w post _ (hwR2 _),
      afterProbes_congr R R2 pre (fun s c hc => hagree2 s c (by simp [hc]))]
    simp [generateContent, hagree2 _ w (by simp)]

/-- Witness of C1: candidates `["m1", "m2"]`, the probe of `m1` fails and the
probe of `m2` succeeds; the run, evaluated next to the instance of the theorem,
returns `"m2"` after probing `m1` and `m2`. -/
theorem findWorkingModel_first_success_witness :
    (∃ c ∈ ["m1", "m2"], (fun c => decide (c = "m2")) c = true) ∧
    (∃ pre w post, ["m1", "m2"] = pre ++ w :: post ∧
      (∀ c ∈ pre, (fun c => decide (c = "m2")) c = false) ∧
      (fun c => decide (c = "m2")) w = true ∧
      (findWorkingModel m2Only ["m1", "m2"] freshServer).1 = .ok w ∧
      (findWorkingModel m2Only ["m1", "m2"] freshServer).2.WORKING_MODEL = some w ∧
      (findWorkingModel m2Only ["m1", "m2"] freshServer).2.calls =
        freshServer.calls ++ (pre ++ [w]).map (fun c => (⟨c, "Say hi in one word"⟩ : Call)) ∧
      ∀ R2 : Remote Unit,
        (∀ s, ∀ c ∈ pre ++ [w], R2 s c "Say hi in one word" = m2Only s c "Say hi in one word") →
        findWorkingModel R2 ["m1", "m2"] freshServer =
          findWorkingModel m2Only ["m1", "m2"] freshServer) ∧
    (findWorkingModel m2Only ["m1", "m2"] freshServer).1 = .ok "m2" ∧
    (findWorkingModel m2Only ["m1", "m2"] freshServer).2.WORKING_MODEL = some "m2" ∧
    (findWorkingModel m2Only ["m1", "m2"] freshServer).2.calls =
      [⟨"m1", "Say hi in one word"⟩, ⟨"m2", "Say hi in one word"⟩] :=
  ⟨⟨"m2", by decide, by decide⟩,
    findWorkingModel_first_success m2Only (fun c => decide (c = "m2"))
      (fun s c => by by_cases h : c = "m2" <;> simp [m2Only, stepSucceeds, h])
      ["m1", "m2"] freshServer ⟨"m2", by decide, by decide⟩,
    rfl, by decide, by decide⟩

/-- Claim C2.  If the probe of every candidate of the list fails (the list may
be empty), `findWorkingModel` throws the error with the message
`No working model found. Please check your API key.`, so it returns no
identifier; it has probed each candidate once, in list order, and
`WORKING_MODEL` is as before. -/
theorem findWorkingModel_exhausted {σ : Type} (R : Remote σ)
    (candidates : List String) (st : Server σ)
    (hfail : ∀ s, ∀ c ∈ candidates, stepSucceeds (R s c "Say hi in one word").1 = false) :
    (findWorkingModel R candidates st).1 =
        .error "No working model found. Please check your API key." ∧
      (∀ w, (findWorkingModel R candidates st).1 ≠ .ok w) ∧
      (findWorkingModel R candidates st).2.calls =
        st.calls ++ candidates.map (fun c => (⟨c, "Say hi in one word"⟩ : Call)) ∧
      (findWorkingModel R candidates st).2.WORKING_MODEL = st.WORKING_MODEL := by
  have hrun : findWorkingModel R candidates st =
      (.error noWorkingModel, afterProbes R candidates st) := by
    have h := findWorkingModel_append_of_fail R candidates [] hfail st
    rw [List.append_nil] at h
    rw [h]
    rfl
  rw [hrun]
  refine ⟨rfl, ?_, ?_, ?_⟩
  · intro w h
    cases h
  · simp [afterProbes_calls, probeCall, probePrompt]
  · exact afterProbes_WORKING_MODEL R candidates st

/-- Witness of C2: both candidates of `["m1", "m2"]` are rejected. -/
theorem findWorkingModel_exhausted_witness :
    (∀ s, ∀ c ∈ ["m1", "m2"], stepSucceeds (rejectAll s c "Say hi in one word").1 = false) ∧
    ((findWorkingModel rejectAll ["m1", "m2"] freshServer).1 =
        .error "No working model found. Please check your API key." ∧
      (∀ w, (findWorkingModel rejectAll ["m1", "m2"] freshServer).1 ≠ .ok w) ∧
      (findWorkingModel rejectAll ["m1", "m2"] freshServer).2.calls =
        freshServer.calls ++ ["m1", "m2"].map (fun c => (⟨c, "Say hi in one word"⟩ : Call)) ∧
      (findWorkingModel rejectAll ["m1", "m2"] freshServer).2.WORKING_MODEL =
        freshServer.WORKING_MODEL) :=
  ⟨fun _ _ _ => rfl,
    findWorkingModel_exhausted rejectAll ["m1", "m2"] freshServer (fun _ _ _ => rfl)⟩

/-! ## Resolution is not cached inside `findWorkingModel` -/

/-- Counterexample to C3 as stated: on the candidates `["m1", "m2"]`, with a
remote service on which only `m2` answers, a first call of `findWorkingModel`
succeeds and sets `WORKING_MODEL` to `"m2"`; a second call returns `"m2"`
again but issues two new probe calls. -/
theorem findWorkingModel_second_call_probes_again :
    (findWorkingModel m2Only ["m1", "m2"] freshServer).1 = .ok "m2" ∧
    (findWorkingModel m2Only ["m1", "m2"] freshServer).2.WORKING_MODEL = some "m2" ∧
    (findWorkingModel m2Only ["m1", "m2"]
      (findWorkingModel m2Only ["m1", "m2"] freshServer).2).1 = .ok "m2" ∧
    (findWorkingModel m2Only ["m1", "m2"]
      (findWorkingModel m2Only ["m1", "m2"] freshServer).2).2.calls =
      (findWorkingModel m2Only ["m1", "m2"] freshServer).2.calls ++
        [⟨"m1", "Say hi in one word"⟩, ⟨"m2", "Say hi in one word"⟩] ∧
    (findWorkingModel m2Only ["m1", "m2"]
      (findWorkingModel m2Only ["m1", "m2"] freshServer).2).2.calls ≠
      (findWorkingModel m2Only ["m1", "m2"] freshServer).2.calls :=
  ⟨rfl, by decide, rfl, by decide, by decide⟩

/-- Claim C3, amended.  Let the success of a probe be decided by the candidate
alone, and let a call of `findWorkingModel` have returned `w`, leaving the
server `st1`.  Then `WORKING_MODEL` is `w`, and a second call of
`findWorkingModel` returns the same `w` and keeps `WORKING_MODEL`, but it is
no cache hit: it issues once more the non-empty sequence of probes that the
first call issued.  The cache is consulted by the caller: when `w` is not the
empty string, the guarded statement `if (!WORKING_MODEL) await
findWorkingModel()` of `GET /test` leaves the server as it is (no probe), and
the whole handler issues one call, to `w`. -/
theorem resolution_after_success {σ : Type} (R : Remote σ) (ok : String → Bool)
    (hok : ∀ s c, stepSucceeds (R s c "Say hi in one word").1 = ok c)
    (candidates : List String) (st st1 : Server σ) (w : String)
    (hfirst : findWorkingModel R candidates st = (.ok w, st1)) :
    st1.WORKING_MODEL = some w ∧
    (findWorkingModel R candidates st1).1 = .ok w ∧
    (findWorkingModel R candidates st1).2.WORKING_MODEL = some w ∧
    (∃ probes : List Call, probes ≠ [] ∧ st1.calls = st.calls ++ probes ∧
      (findWorkingModel R candidates st1).2.calls = st1.calls ++ probes) ∧
    (w ≠ "" →
      resolveIfNeeded R candidates st1 = (.ok (), st1) ∧
      (testEndpoint R candidates st1).2.calls = st1.calls ++ [⟨w, "Say hello in one word"⟩] ∧
      (testEndpoint R candidates st1).2.WORKING_MODEL = some w) := by
  have hok2 : ∀ s c, stepSucceeds (R s c probePrompt).1 = ok c := hok
  by_cases hex : ∃ c ∈ candidates, ok c = true
  · obtain ⟨pre, v, post, hsplit, hpre, hv⟩ := first_success_split ok candidates hex
    have hfail : ∀ s, ∀ c ∈ pre, stepSucceeds (R s c probePrompt).1 = false :=
      fun s c hc => by rw [hok2, hpre c hc]
    have hsucc : ∀ s, stepSucceeds (R s v probePrompt).1 = true :=
      fun s => by rw [hok2, hv]
    have hrun := fun s => findWorkingModel_of_split R pre v post hfail hsucc s
    rw [← hsplit] at hrun
    rw [hrun st] at hfirst
    have hvw : v = w := by
      have := congrArg Prod.fst hfirst
      simpa using this
    have hst1 : st1 = { (generateContent R (afterProbes R pre st) v probePrompt).2 with
        WORKING_MODEL := some v } := (congrArg Prod.snd hfirst).symm
    subst hvw
    have hwm : st1.WORKING_MODEL = some v := by rw [hst1]
    have hcalls : st1.calls = st.calls ++ (pre ++ [v]).map probeCall := by
      rw [hst1]
      simp [generateContent, afterProbes_calls, probeCall]
    refine ⟨hwm, ?_, ?_, ⟨(pre ++ [v]).map probeCall, by simp, hcalls, ?_⟩, ?_⟩
    · rw [hrun st1]
    · rw [hrun st1]
    · rw [hrun st1]
      simp [generateContent, afterProbes_calls, probeCall]
    · intro hne
      refine ⟨resolveIfNeeded_of_truthy R candidates st1 v hwm hne, ?_, ?_⟩
      · rw [testEndpoint_of_truthy R candidates st1 v hwm hne]
        rfl
      · rw [testEndpoint_of_truthy R candidates st1 v hwm hne]
        exact hwm
  · have hfail : ∀ s, ∀ c ∈ candidates, stepSucceeds (R s c probePrompt).1 = false := by
      intro s c hc
      rw [hok2]
      cases h : ok c with
      | false => rfl
      | true => exact absurd ⟨c, hc, h⟩ hex
    rw [findWorkingModel_of_all_fail R candidates hfail st] at hfirst
    have := congrArg Prod.fst hfirst
    cases this

/-- Witness of the amended C3 on the candidates `["m1", "m2"]` where only
`m2` answers. -/
theorem resolution_after_success_witness :
    (∀ (s : Unit) c, stepSucceeds (m2Only s c "Say hi in one word").1 = decide (c = "m2")) ∧
    findWorkingModel m2Only ["m1", "m2"] freshServer =
      (.ok "m2", ⟨some "m2", (), [⟨"m1", "Say hi in one word"⟩, ⟨"m2", "Say hi in one word"⟩]⟩) ∧
    ((⟨some "m2", (), [⟨"m1", "Say hi in one word"⟩, ⟨"m2", "Say hi in one word"⟩]⟩ :
        Server Unit).WORKING_MODEL = some "m2" ∧
      (findWorkingModel m2Only ["m1", "m2"]
        ⟨some "m2", (), [⟨"m1", "Say hi in one word"⟩, ⟨"m2", "Say hi in one word"⟩]⟩).1 =
        .ok "m2" ∧
      (findWorkingModel m2Only ["m1", "m2"]
        ⟨some "m2", (), [⟨"m1", "Say hi in one word"⟩,
          ⟨"m2", "Say hi in one word"⟩]⟩).2.WORKING_MODEL = some "m2" ∧
      (∃ probes : List Call, probes ≠ [] ∧
        (⟨some "m2", (), [⟨"m1", "Say hi in one word"⟩, ⟨"m2", "Say hi in one word"⟩]⟩ :
          Server Unit).calls = freshServer.calls ++ probes ∧
        (findWorkingModel m2Only ["m1", "m2"]
          ⟨some "m2", (), [⟨"m1", "Say hi in one word"⟩,
            ⟨"m2", "Say hi in one word"⟩]⟩).2.calls =
          (⟨some "m2", (), [⟨"m1", "Say hi in one word"⟩, ⟨"m2", "Say hi in one word"⟩]⟩ :
            Server Unit).calls ++ probes) ∧
      ("m2" ≠ "" →
        resolveIfNeeded m2Only ["m1", "m2"]
          ⟨some "m2", (), [⟨"m1", "Say hi in one word"⟩, ⟨"m2", "Say hi in one word"⟩]⟩ =
          (.ok (), ⟨some "m2", (), [⟨"m1", "Say hi in one word"⟩,
            ⟨"m2", "Say hi in one word"⟩]⟩) ∧
        (testEndpoint m2Only ["m1", "m2"]
          ⟨some "m2", (), [⟨"m1", "Say hi in one word"⟩,
            ⟨"m2", "Say hi in one word"⟩]⟩).2.calls =
          (⟨some "m2", (), [⟨"m1", "Say hi in one word"⟩, ⟨"m2", "Say hi in one word"⟩]⟩ :
            Server Unit).calls ++ [⟨"m2", "Say hello in one word"⟩] ∧
        (testEndpoint m2Only ["m1", "m2"]
          ⟨some "m2", (), [⟨"m1", "Say hi in one word"⟩,
            ⟨"m2", "Say hi in one word"⟩]⟩).2.WORKING_MODEL = some "m2")) :=
  ⟨fun s c => by by_cases h : c = "m2" <;> simp [m2Only, stepSucceeds, h],
    rfl,
    resolution_after_success m2Only (fun c => decide (c = "m2"))
      (fun s c => by by_cases h : c = "m2" <;> simp [m2Only, stepSucceeds, h])
      ["m1", "m2"] freshServer _ "m2" rfl⟩

/-! ## Word help: validation and readiness -/

/-- Counterexample to C4 as stated: the word `"  "` is blank after trimming,
yet with `WORKING_MODEL` set the handler accepts it, issues both generation
calls and answers `200`; with `WORKING_MODEL` unset it answers
`Server not ready`, not `Word is required`. -/
theorem wordHelp_blank_word_not_rejected :
    jsTrim "  " = "" ∧
    (wordHelp blankText ⟨some "  "⟩ resolvedM2).1 =
      [⟨200, [("word", .str "  "), ("definition", .str ""), ("imagePrompt", .str "")]⟩] ∧
    (wordHelp blankText ⟨some "  "⟩ resolvedM2).2.calls =
      [⟨"m2", defPrompt "  "⟩, ⟨"m2", imgPrompt "  "⟩] ∧
    (wordHelp blankText ⟨some "  "⟩ freshServer).1 =
      [⟨500, [("error", .str "Server not ready"),
        ("message", .str "Model initialization in progress. Please try again in a few seconds.")]⟩] :=
  ⟨by decide, by decide, by decide, by decide⟩

/-- Claim C4, amended.  For every request whose word is missing or is the empty
string, whatever `WORKING_MODEL` holds, the handler sends the single response
with status `400` and body `error: "Word is required"`, and leaves the server
untouched: no remote
call is issued. -/
theorem wordHelp_rejects_falsy_word {σ : Type} (R : Remote σ) (body : WordHelpRequest)
    (st : Server σ) (h : body.word = none ∨ body.word = some "") :
    (wordHelp R body st).1 = [⟨400, [("error", .str "Word is required")]⟩] ∧
    (wordHelp R body st).2.calls = st.calls ∧
    (wordHelp R body st).2 = st := by
  rw [wordHelp_of_falsy_word R body st h]
  exact ⟨rfl, rfl, rfl⟩

/-- Witness of the amended C4: the empty word, with a model resolved. -/
theorem wordHelp_rejects_falsy_word_witness :
    ((⟨some ""⟩ : WordHelpRequest).word = none ∨ (⟨some ""⟩ : WordHelpRequest).word = some "") ∧
    ((wordHelp m2Only ⟨some ""⟩ resolvedM2).1 = [⟨400, [("error", .str "Word is required")]⟩] ∧
      (wordHelp m2Only ⟨some ""⟩ resolvedM2).2.calls = resolvedM2.calls ∧
      (wordHelp m2Only ⟨some ""⟩ resolvedM2).2 = resolvedM2) :=
  ⟨Or.inr rfl, wordHelp_rejects_falsy_word m2Only ⟨some ""⟩ resolvedM2 (Or.inr rfl)⟩

/-- Claim C5.  A request with a non-empty word that arrives while
`WORKING_MODEL` is `null` gets the single response
with status `500` and body `error: "Server not ready"`, `message: ...`; the
server is left untouched, so
neither a generation call nor a probe is issued. -/
theorem wordHelp_not_ready {σ : Type} (R : Remote σ) (word : String) (st : Server σ)
    (hword : word ≠ "") (hwm : st.WORKING_MODEL = none) :
    (wordHelp R ⟨some word⟩ st).1 =
      [⟨500, [("error", .str "Server not ready"),
        ("message", .str "Model initialization in progress. Please try again in a few seconds.")]⟩] ∧
    (wordHelp R ⟨some word⟩ st).2.calls = st.calls ∧
    (wordHelp R ⟨some word⟩ st).2 = st := by
  rw [wordHelp_of_not_ready R word st hword (Or.inl hwm)]
  exact ⟨rfl, rfl, rfl⟩

/-- Witness of C5: the word `cat` on a server that has not resolved a model. -/
theorem wordHelp_not_ready_witness :
    "cat" ≠ "" ∧ freshServer.WORKING_MODEL = none ∧
    ((wordHelp m2Only ⟨some "cat"⟩ freshServer).1 =
      [⟨500, [("error", .str "Server not ready"),
        ("message", .str "Model initialization in progress. Please try again in a few seconds.")]⟩] ∧
    (wordHelp m2Only ⟨some "cat"⟩ freshServer).2.calls = freshServer.calls ∧
    (wordHelp m2Only ⟨some "cat"⟩ freshServer).2 = freshServer) :=
  ⟨by decide, rfl, wordHelp_not_ready m2Only "cat" freshServer (by decide) rfl⟩

/-! ## Word help: the two generation steps -/

/-- Counterexample to C6 as stated: for the word `" cat "` and a remote service
that answers both calls with the blank text `"  "`, both generation steps
succeed, yet the `word` field of the result is `" cat "`, not the trimmed
`"cat"`, and `definition` and `imagePrompt` are empty strings. -/
theorem wordHelp_result_untrimmed_word_empty_texts :
    stepSucceeds (blankText () "m2" (defPrompt " cat ")).1 = true ∧
    stepSucceeds (blankText () "m2" (imgPrompt " cat ")).1 = true ∧
    jsTrim " cat " = "cat" ∧
    (wordHelp blankText ⟨some " cat "⟩ resolvedM2).1 =
      [⟨200, [("word", .str " cat "), ("definition", .str ""), ("imagePrompt", .str "")]⟩] :=
  ⟨rfl, rfl, by decide, by decide⟩

/-- Claim C6, amended.  For a non-empty word and a resolved model, when both
generation steps succeed with texts `t1` and `t2`, the handler sends one
result whose `word` field is the word as received (it is not trimmed) and
whose `definition` and `imagePrompt` fields are `t1` and `t2` trimmed; each of
the two is a non-empty string exactly when the text has a character that is
not white space. -/
theorem wordHelp_result_fields {σ : Type} (R : Remote σ) (word m : String) (st : Server σ)
    (r1 r2 : GenerateContentResult) (t1 t2 : String)
    (hword : word ≠ "") (hm : m ≠ "") (hwm : st.WORKING_MODEL = some m)
    (h1 : (R st.remote m (defPrompt word)).1 = .ok r1) (ht1 : r1.text = .ok t1)
    (h2 : (R (R st.remote m (defPrompt word)).2 m (imgPrompt word)).1 = .ok r2)
    (ht2 : r2.text = .ok t2) :
    ∃ r : Response, (wordHelp R ⟨some word⟩ st).1 = [r] ∧ r.status = 200 ∧
      r.field "word" = some (.str word) ∧
      r.field "definition" = some (.str (jsTrim t1)) ∧
      r.field "imagePrompt" = some (.str (jsTrim t2)) ∧
      (jsTrim t1 ≠ "" ↔ ∃ c ∈ t1.data, isJsWhiteSpace c = false) ∧
      (jsTrim t2 ≠ "" ↔ ∃ c ∈ t2.data, isJsWhiteSpace c = false) := by
  rw [wordHelp_of_success R word m st r1 r2 t1 t2 hword hm hwm h1 ht1 h2 ht2]
  exact ⟨_, rfl, rfl, by simp [Response.field, List.lookup],
    by simp [Response.field, List.lookup], by simp [Response.field, List.lookup],
    jsTrim_ne_empty_iff t1, jsTrim_ne_empty_iff t2⟩

/-- Witness of the amended C6: the word `" cat "` with blank answers. -/
theorem wordHelp_result_fields_witness :
    " cat " ≠ "" ∧ "m2" ≠ "" ∧ resolvedM2.WORKING_MODEL = some "m2" ∧
    (blankText resolvedM2.remote "m2" (defPrompt " cat ")).1 = .ok ⟨.ok "  "⟩ ∧
    (blankText (blankText resolvedM2.remote "m2" (defPrompt " cat ")).2 "m2"
      (imgPrompt " cat ")).1 = .ok ⟨.ok "  "⟩ ∧
    (∃ r : Response, (wordHelp blankText ⟨some " cat "⟩ resolvedM2).1 = [r] ∧ r.status = 200 ∧
      r.field "word" = some (.str " cat ") ∧
      r.field "definition" = some (.str (jsTrim "  ")) ∧
      r.field "imagePrompt" = some (.str (jsTrim "  ")) ∧
      (jsTrim "  " ≠ "" ↔ ∃ c ∈ "  ".data, isJsWhiteSpace c = false) ∧
      (jsTrim "  " ≠ "" ↔ ∃ c ∈ "  ".data, isJsWhiteSpace c = false)) :=
  ⟨by decide, by decide, rfl, rfl, rfl,
    wordHelp_result_fields blankText " cat " "m2" resolvedM2 ⟨.ok "  "⟩ ⟨.ok "  "⟩ "  " "  "
      (by decide) (by decide) rfl rfl rfl rfl rfl⟩

/-- Claim C7.  For a non-empty word and a resolved model `m`, when both
generation steps succeed with texts `t1` and `t2`, the handler issues exactly
two generation calls, both to `m`: first the definition prompt, then the
image prompt, each being the fixed template with the word between double
quotes; and it sends the single response `200` with the body
`word`, `definition: trim(t1)`, `imagePrompt: trim(t2)`. -/
theorem wordHelp_two_calls_then_result {σ : Type} (R : Remote σ) (word m : String)
    (st : Server σ) (r1 r2 : GenerateContentResult) (t1 t2 : String)
    (hword : word ≠ "") (hm : m ≠ "") (hwm : st.WORKING_MODEL = some m)
    (h1 : (R st.remote m (defPrompt word)).1 = .ok r1) (ht1 : r1.text = .ok t1)
    (h2 : (R (R st.remote m (defPrompt word)).2 m (imgPrompt word)).1 = .ok r2)
    (ht2 : r2.text = .ok t2) :
    (wordHelp R ⟨some word⟩ st).2.calls =
      st.calls ++ [⟨m, defPrompt word⟩, ⟨m, imgPrompt word⟩] ∧
    defPrompt word = "You are a friendly teacher. Explain the word \"" ++ word ++
      "\" to a 5-year-old child in ONE simple, fun sentence. Keep it under 25 words." ∧
    imgPrompt word = "Describe a colorful, friendly cartoon image of \"" ++ word ++
      "\" for children. One sentence, under 25 words." ∧
    (wordHelp R ⟨some word⟩ st).1 =
      [⟨200, [("word", .str word), ("definition", .str (jsTrim t1)),
        ("imagePrompt", .str (jsTrim t2))]⟩] := by
  rw [wordHelp_of_success R word m st r1 r2 t1 t2 hword hm hwm h1 ht1 h2 ht2]
  refine ⟨?_, rfl, rfl, rfl⟩
  simp [generateContent]

/-- Witness of C7: model `m2`, word `cat`, and the two texts of the scenario. -/
theorem wordHelp_two_calls_then_result_witness :
    "cat" ≠ "" ∧ "m2" ≠ "" ∧ resolvedM2.WORKING_MODEL = some "m2" ∧
    (catRemote resolvedM2.remote "m2" (defPrompt "cat")).1 =
      .ok ⟨.ok "A cat is a furry pet that purrs."⟩ ∧
    (catRemote (catRemote resolvedM2.remote "m2" (defPrompt "cat")).2 "m2"
      (imgPrompt "cat")).1 = .ok ⟨.ok "A cute orange cartoon cat sitting in a garden."⟩ ∧
    ((wordHelp catRemote ⟨some "cat"⟩ resolvedM2).2.calls =
      resolvedM2.calls ++ [⟨"m2", defPrompt "cat"⟩, ⟨"m2", imgPrompt "cat"⟩] ∧
    defPrompt "cat" = "You are a friendly teacher. Explain the word \"" ++ "cat" ++
      "\" to a 5-year-old child in ONE simple, fun sentence. Keep it under 25 words." ∧
    imgPrompt "cat" = "Describe a colorful, friendly cartoon image of \"" ++ "cat" ++
      "\" for children. One sentence, under 25 words." ∧
    (wordHelp catRemote ⟨some "cat"⟩ resolvedM2).1 =
      [⟨200, [("word", .str "cat"),
        ("definition", .str (jsTrim "A cat is a furry pet that purrs.")),
        ("imagePrompt", .str (jsTrim "A cute orange cartoon cat sitting in a garden."))]⟩]) ∧
    jsTrim "A cat is a furry pet that purrs." = "A cat is a furry pet that purrs." ∧
    jsTrim "A cute orange cartoon cat sitting in a garden." =
      "A cute orange cartoon cat sitting in a garden." :=
  ⟨by decide, by decide, rfl, rfl, rfl,
    wordHelp_two_calls_then_result catRemote "cat" "m2" resolvedM2
      ⟨.ok "A cat is a furry pet that purrs."⟩
      ⟨.ok "A cute orange cartoon cat sitting in a garden."⟩
      "A cat is a furry pet that purrs." "A cute orange cartoon cat sitting in a garden."
      (by decide) (by decide) rfl rfl rfl rfl rfl,
    by decide, by decide⟩

/-! ## Word help: stage failures -/

/-- Claim C8.  For a non-empty word and a resolved model `m`, let the step
for the definition throw an error with message `msg`, or let it succeed and
the image-prompt step throw an error with message `msg`.  Then the handler sends
exactly one response, with status `500` and body
`error: "Failed to process word"`, `message: msg`,
which has neither a `definition` nor an `imagePrompt` field; and no call is
issued after the failing one: one call (the definition prompt) when the first
step failed, two calls when the image-prompt step failed. -/
theorem wordHelp_stage_failure {σ : Type} (R : Remote σ) (word m msg : String)
    (st : Server σ) (hword : word ≠ "") (hm : m ≠ "") (hwm : st.WORKING_MODEL = some m)
    (hfail : thrownMessage (R st.remote m (defPrompt word)).1 = some msg ∨
      (stepSucceeds (R st.remote m (defPrompt word)).1 = true ∧
        thrownMessage (R (R st.remote m (defPrompt word)).2 m (imgPrompt word)).1 = some msg)) :
    (wordHelp R ⟨some word⟩ st).1 =
      [⟨500, [("error", .str "Failed to process word"), ("message", .str msg)]⟩] ∧
    (∀ r ∈ (wordHelp R ⟨some word⟩ st).1,
      r.field "definition" = none ∧ r.field "imagePrompt" = none) ∧
    (stepSucceeds (R st.remote m (defPrompt word)).1 = false →
      (wordHelp R ⟨some word⟩ st).2.calls = st.calls ++ [⟨m, defPrompt word⟩]) ∧
    (stepSucceeds (R st.remote m (defPrompt word)).1 = true →
      (wordHelp R ⟨some word⟩ st).2.calls =
        st.calls ++ [⟨m, defPrompt word⟩, ⟨m, imgPrompt word⟩]) := by
  have hfields : ∀ r ∈ [failedToProcess msg],
      r.field "definition" = none ∧ r.field "imagePrompt" = none := by
    intro r hr
    rw [List.mem_singleton] at hr
    subst hr
    constructor <;> simp [failedToProcess, Response.field, List.lookup]
  rcases hfail with hdef | ⟨hdef, himg⟩
  · rw [wordHelp_of_def_fails R word m msg st hword hm hwm hdef]
    refine ⟨rfl, hfields, fun _ => rfl, ?_⟩
    intro hs
    rw [stepFails_of_thrownMessage hdef] at hs
    cases hs
  · rw [wordHelp_of_img_fails R word m msg st hword hm hwm hdef himg]
    refine ⟨rfl, hfields, ?_, fun _ => by simp [generateContent]⟩
    intro hs
    rw [hdef] at hs
    cases hs

/-- Witness of C8, at both stages: a remote service that rejects its first
call (the definition step fails), and one that rejects its second call (the
image-prompt step fails after the definition step succeeded). -/
theorem wordHelp_stage_failure_witness :
    ("cat" ≠ "" ∧ "m2" ≠ "" ∧ resolvedM2Counting.WORKING_MODEL = some "m2" ∧
      thrownMessage (failsAt 0 resolvedM2Counting.remote "m2" (defPrompt "cat")).1 =
        some "quota exceeded" ∧
      ((wordHelp (failsAt 0) ⟨some "cat"⟩ resolvedM2Counting).1 =
        [⟨500, [("error", .str "Failed to process word"), ("message", .str "quota exceeded")]⟩] ∧
      (∀ r ∈ (wordHelp (failsAt 0) ⟨some "cat"⟩ resolvedM2Counting).1,
        r.field "definition" = none ∧ r.field "imagePrompt" = none) ∧
      (stepSucceeds (failsAt 0 resolvedM2Counting.remote "m2" (defPrompt "cat")).1 = false →
        (wordHelp (failsAt 0) ⟨some "cat"⟩ resolvedM2Counting).2.calls =
          resolvedM2Counting.calls ++ [⟨"m2", defPrompt "cat"⟩]) ∧
      (stepSucceeds (failsAt 0 resolvedM2Counting.remote "m2" (defPrompt "cat")).1 = true →
        (wordHelp (failsAt 0) ⟨some "cat"⟩ resolvedM2Counting).2.calls =
          resolvedM2Counting.calls ++ [⟨"m2", defPrompt "cat"⟩, ⟨"m2", imgPrompt "cat"⟩]))) ∧
    (stepSucceeds (failsAt 1 resolvedM2Counting.remote "m2" (defPrompt "cat")).1 = true ∧
      thrownMessage (failsAt 1 (failsAt 1 resolvedM2Counting.remote "m2" (defPrompt "cat")).2
        "m2" (imgPrompt "cat")).1 = some "quota exceeded" ∧
      ((wordHelp (failsAt 1) ⟨some "cat"⟩ resolvedM2Counting).1 =
        [⟨500, [("error", .str "Failed to process word"), ("message", .str "quota exceeded")]⟩] ∧
      (∀ r ∈ (wordHelp (failsAt 1) ⟨some "cat"⟩ resolvedM2Counting).1,
        r.field "definition" = none ∧ r.field "imagePrompt" = none) ∧
      (stepSucceeds (failsAt 1 resolvedM2Counting.remote "m2" (defPrompt "cat")).1 = false →
        (wordHelp (failsAt 1) ⟨some "cat"⟩ resolvedM2Counting).2.calls =
          resolvedM2Counting.calls ++ [⟨"m2", defPrompt "cat"⟩]) ∧
      (stepSucceeds (failsAt 1 resolvedM2Counting.remote "m2" (defPrompt "cat")).1 = true →
        (wordHelp (failsAt 1) ⟨some "cat"⟩ resolvedM2Counting).2.calls =
          resolvedM2Counting.calls ++ [⟨"m2", defPrompt "cat"⟩, ⟨"m2", imgPrompt "cat"⟩]))) :=
  ⟨⟨by decide, by decide, rfl, rfl,
      wordHelp_stage_failure (failsAt 0) "cat" "m2" "quota exceeded" resolvedM2Counting
        (by decide) (by decide) rfl (Or.inl rfl)⟩,
    rfl, rfl,
    wordHelp_stage_failure (failsAt 1) "cat" "m2" "quota exceeded" resolvedM2Counting
      (by decide) (by decide) rfl (Or.inr ⟨rfl, rfl⟩)⟩

/-- Counterexample to C9 as stated: when the definition step fails, and when
the image-prompt step fails after a successful definition step, the failure
response has no `stage` field at all (so its stage is neither `definition`
nor `imagePrompt`), and the two responses are the same. -/
theorem wordHelp_failure_stage_not_reported :
    thrownMessage (failsAt 0 0 "m2" (defPrompt "cat")).1 = some "quota exceeded" ∧
    (wordHelp (failsAt 0) ⟨some "cat"⟩ resolvedM2Counting).1 =
      [⟨500, [("error", .str "Failed to process word"), ("message", .str "quota exceeded")]⟩] ∧
    stepSucceeds (failsAt 1 0 "m2" (defPrompt "cat")).1 = true ∧
    thrownMessage (failsAt 1 1 "m2" (imgPrompt "cat")).1 = some "quota exceeded" ∧
    (wordHelp (failsAt 1) ⟨some "cat"⟩ resolvedM2Counting).1 =
      [⟨500, [("error", .str "Failed to process word"), ("message", .str "quota exceeded")]⟩] ∧
    (⟨500, [("error", .str "Failed to process word"),
      ("message", .str "quota exceeded")]⟩ : Response).field "stage" = none ∧
    (⟨500, [("error", .str "Failed to process word"),
      ("message", .str "quota exceeded")]⟩ : Response).field "stage" ≠
        some (.str "definition") ∧
    (⟨500, [("error", .str "Failed to process word"),
      ("message", .str "quota exceeded")]⟩ : Response).field "stage" ≠
        some (.str "imagePrompt") :=
  ⟨rfl, by decide, rfl, rfl, by decide, by decide, by decide, by decide⟩

/-- Claim C9, amended.  The failure reported by the word-help handler does not
identify the failing stage.  For a non-empty word and a resolved model, take a
run in which the definition step throws an error with message `msg` and a run
in which the definition step succeeds and the image-prompt step throws an
error with the same message: both runs send the same single response,
with status `500` and body `error: "Failed to process word"`, `message: msg`,
and it has no `stage`
field. -/
theorem wordHelp_failure_without_stage {σ : Type} (R1 R2 : Remote σ) (word m msg : String)
    (st1 st2 : Server σ) (hword : word ≠ "") (hm : m ≠ "")
    (hwm1 : st1.WORKING_MODEL = some m) (hwm2 : st2.WORKING_MODEL = some m)
    (hdef : thrownMessage (R1 st1.remote m (defPrompt word)).1 = some msg)
    (hdef2 : stepSucceeds (R2 st2.remote m (defPrompt word)).1 = true)
    (himg : thrownMessage
      (R2 (R2 st2.remote m (defPrompt word)).2 m (imgPrompt word)).1 = some msg) :
    (wordHelp R1 ⟨some word⟩ st1).1 =
      [⟨500, [("error", .str "Failed to process word"), ("message", .str msg)]⟩] ∧
    (wordHelp R2 ⟨some word⟩ st2).1 = (wordHelp R1 ⟨some word⟩ st1).1 ∧
    (∀ r ∈ (wordHelp R1 ⟨some word⟩ st1).1, r.field "stage" = none) ∧
    (∀ r ∈ (wordHelp R2 ⟨some word⟩ st2).1, r.field "stage" = none) := by
  have hfield : ∀ r ∈ [failedToProcess msg], r.field "stage" = none := by
    intro r hr
    rw [List.mem_singleton] at hr
    subst hr
    simp [failedToProcess, Response.field, List.lookup]
  rw [wordHelp_of_def_fails R1 word m msg st1 hword hm hwm1 hdef,
    wordHelp_of_img_fails R2 word m msg st2 hword hm hwm2 hdef2 himg]
  exact ⟨rfl, rfl, hfield, hfield⟩

/-- Witness of the amended C9: the first call rejected in one run, the second
call rejected in the other. -/
theorem wordHelp_failure_without_stage_witness :
    "cat" ≠ "" ∧ "m2" ≠ "" ∧ resolvedM2Counting.WORKING_MODEL = some "m2" ∧
    thrownMessage (failsAt 0 resolvedM2Counting.remote "m2" (defPrompt "cat")).1 =
      some "quota exceeded" ∧
    stepSucceeds (failsAt 1 resolvedM2Counting.remote "m2" (defPrompt "cat")).1 = true ∧
    thrownMessage (failsAt 1 (failsAt 1 resolvedM2Counting.remote "m2" (defPrompt "cat")).2
      "m2" (imgPrompt "cat")).1 = some "quota exceeded" ∧
    ((wordHelp (failsAt 0) ⟨some "cat"⟩ resolvedM2Counting).1 =
      [⟨500, [("error", .str "Failed to process word"), ("message", .str "quota exceeded")]⟩] ∧
    (wordHelp (failsAt 1) ⟨some "cat"⟩ resolvedM2Counting).1 =
      (wordHelp (failsAt 0) ⟨some "cat"⟩ resolvedM2Counting).1 ∧
    (∀ r ∈ (wordHelp (failsAt 0) ⟨some "cat"⟩ resolvedM2Counting).1, r.field "stage" = none) ∧
    (∀ r ∈ (wordHelp (failsAt 1) ⟨some "cat"⟩ resolvedM2Counting).1, r.field "stage" = none)) :=
  ⟨by decide, by decide, rfl, rfl, rfl, rfl,
    wordHelp_failure_without_stage (failsAt 0) (failsAt 1) "cat" "m2" "quota exceeded"
      resolvedM2Counting resolvedM2Counting (by decide) (by decide) rfl rfl rfl rfl rfl⟩

/-! ## The cache is written by `findWorkingModel` only -/

/-- Claim C10.  Whatever the request body, the prior value of `WORKING_MODEL`
and the behaviour of the remote service, the word-help handler leaves
`WORKING_MODEL` as it was.  So does the health handler.  `findWorkingModel`
leaves it as it was when it throws and sets it to the returned identifier when
it returns; and the test handler changes it only through a successful
`findWorkingModel`. -/
theorem WORKING_MODEL_written_by_findWorkingModel_only {σ : Type} (R : Remote σ)
    (body : WordHelpRequest) (candidates : List String) (timestamp : String)
    (apiKeyPresent : Bool) (st : Server σ) :
    (wordHelp R body st).2.WORKING_MODEL = st.WORKING_MODEL ∧
    (health timestamp apiKeyPresent st).2.WORKING_MODEL = st.WORKING_MODEL ∧
    (match (findWorkingModel R candidates st).1 with
      | .ok w => (findWorkingModel R candidates st).2.WORKING_MODEL = some w
      | .error _ => (findWorkingModel R candidates st).2.WORKING_MODEL = st.WORKING_MODEL) ∧
    ((testEndpoint R candidates st).2.WORKING_MODEL = st.WORKING_MODEL ∨
      ∃ w, (findWorkingModel R candidates st).1 = .ok w ∧
        (testEndpoint R candidates st).2.WORKING_MODEL = some w) := by
  refine ⟨wordHelp_WORKING_MODEL R body st, rfl, findWorkingModel_WORKING_MODEL R candidates st, ?_⟩
  have hgen : ∀ (s : Server σ) (x : Except String Unit),
      (match (x, s) with
        | (.error message, st1) =>
          (([⟨500, [("success", .bool false), ("error", .str message)]⟩], st1) :
            List Response × Server σ)
        | (.ok _, st1) =>
          let workingModel := st1.WORKING_MODEL.getD ""
          match generateContent R st1 workingModel "Say hello in one word" with
          | (.error message, st2) =>
            ([⟨500, [("success", .bool false), ("error", .str message)]⟩], st2)
          | (.ok result, st2) =>
            match result.text with
            | .error message =>
              ([⟨500, [("success", .bool false), ("error", .str message)]⟩], st2)
            | .ok text =>
              ([⟨200, [("success", .bool true), ("message", .str "API key is working!"),
                  ("model", .str workingModel), ("response", .str text)]⟩], st2)).2.WORKING_MODEL
        = s.WORKING_MODEL := by
    intro s x
    cases x with
    | error e => rfl
    | ok u =>
      simp only [generateContent]
      rcases R s.remote (s.WORKING_MODEL.getD "") "Say hello in one word" with ⟨r, s2⟩
      cases r with
      | error e => rfl
      | ok result =>
        cases ht : result.text with
        | error e => simp [ht]
        | ok t => simp [ht]
  have hW := findWorkingModel_WORKING_MODEL R candidates st
  unfold testEndpoint resolveIfNeeded
  by_cases htr : truthy st.WORKING_MODEL = true
  · left
    rw [if_pos htr]
    exact hgen st (.ok ())
  · rw [if_neg htr]
    rcases hf : findWorkingModel R candidates st with ⟨res, s1⟩
    rw [hf] at hW
    cases res with
    | error e =>
      left
      exact hW
    | ok w =>
      right
      refine ⟨w, rfl, ?_⟩
      exact (hgen s1 (.ok ())).trans hW

end Kindred
